import Mathlib

/-!
Verification of the Nepali Compound Interest Calculator
(`src/app/page.tsx` of the repository).

Shallow embedding conventions:
* JavaScript numbers are modelled as exact rationals (`ℚ`); the spec's
  worked examples use exact decimal arithmetic.
* `throw new Error(msg)` is modelled as `Except.error msg` with the
  source's exact message string.
* `Math.round(x)` in JavaScript is `⌊x + 1/2⌋` (round half toward +∞);
  `jsRound` models it that way.
* `parseFloat` results reaching `handleCalculate` are modelled as
  `Option ℚ` (`none` for `NaN`).
* The display-only `details` derivation string of a breakdown entry is
  not modelled; no verified property refers to it.
* The mutating `for` loop of `calculateNepaliInterest` (lines 109-122)
  is modelled by the structurally recursive `yearEntries`; the trailing
  months/days block (lines 124-156, local variable `partialInterest`)
  by `remainderEntry`.
-/

/-- BS date components as produced by `parseBSDate` (page.tsx line 50). -/
structure BSDate where
  year : ℤ
  month : ℤ
  day : ℤ
deriving DecidableEq, Repr

/-- Elapsed duration, the return value of `calculateBSDateDifference`. -/
structure Duration where
  years : ℤ
  months : ℤ
  days : ℤ
deriving DecidableEq, Repr

/-- One row of the accrual breakdown (`BreakdownEntry`, page.tsx line 26).
The display-only `details` string field is omitted. -/
structure BreakdownEntry where
  period : String
  startingPrincipal : ℚ
  interest : ℚ
  endingAmount : ℚ
deriving DecidableEq, Repr

/-- `CalculationResult` (page.tsx line 15). -/
structure CalculationResult where
  finalAmount : ℚ
  totalInterest : ℚ
  timeDuration : Duration
  breakdown : List BreakdownEntry
deriving DecidableEq, Repr

/-- The two pieces of React state that `handleCalculate` writes:
`result` (null modelled as `none`) and `error`. -/
structure UIState where
  result : Option CalculationResult
  error : String
deriving DecidableEq, Repr

/-- Constant `BS_DAYS_PER_MONTH` (page.tsx line 46). -/
def BS_DAYS_PER_MONTH : ℤ := 30

/-- Constant `BS_MONTHS_PER_YEAR` (page.tsx line 47). -/
def BS_MONTHS_PER_YEAR : ℤ := 12

/-- Split of a character list at every hyphen, the semantics of
JavaScript `dateString.split('-')`: the empty string yields one empty
piece, and consecutive hyphens yield empty pieces. -/
def splitOnHyphen : List Char → List (List Char)
  | [] => [[]]
  | c :: cs =>
    match splitOnHyphen cs with
    | [] => [[]]
    | piece :: rest =>
      if c = '-' then [] :: piece :: rest else (c :: piece) :: rest

/-- Value of a nonempty all-digit character list read in decimal,
which is what JavaScript `Number` returns on the pieces of a string
admitted by `handleCalculate`'s pattern check; `none` stands for `NaN`
(non-digit input), which the validated pipeline never produces. -/
def digitsToNat? (cs : List Char) : Option ℕ :=
  if cs ≠ [] ∧ cs.all Char.isDigit then
    some (cs.foldl (fun acc c => acc * 10 + (c.toNat - 48)) 0)
  else none

/-- `parseBSDate` (page.tsx line 50): split on the hyphen and read each
piece as a number. -/
def parseBSDate (dateString : String) : Option BSDate :=
  match (splitOnHyphen dateString.toList).map digitsToNat? with
  | [some y, some m, some d] => some ⟨(y : ℤ), (m : ℤ), (d : ℤ)⟩
  | _ => none

/-- `calculateBSDateDifference` (page.tsx lines 55-85), over already
parsed components. Sequential borrowing exactly as in the source: first
the day borrow, then the month borrow on the possibly decremented month
difference. -/
def calculateBSDateDifference (start stop : BSDate) : Except String Duration :=
  if stop.year < start.year ∨
      (stop.year = start.year ∧ stop.month < start.month) ∨
      (stop.year = start.year ∧ stop.month = start.month ∧ stop.day < start.day) then
    .error "End date must be after start date"
  else
    let years := stop.year - start.year
    let months0 := stop.month - start.month
    let days0 := stop.day - start.day
    let months1 := if days0 < 0 then months0 - 1 else months0
    let days1 := if days0 < 0 then days0 + BS_DAYS_PER_MONTH else days0
    let years1 := if months1 < 0 then years - 1 else years
    let months2 := if months1 < 0 then months1 + BS_MONTHS_PER_YEAR else months1
    .ok ⟨years1, months2, days1⟩

/-- Rate-unit inference `isMonthlyRate = interestRate < 10`
(page.tsx line 102). -/
def isMonthlyRate (interestRate : ℚ) : Bool := interestRate < 10

/-- `monthlyRate` (page.tsx line 103). -/
def monthlyRate (interestRate : ℚ) : ℚ :=
  if isMonthlyRate interestRate then interestRate else interestRate / 12

/-- `annualRate` (page.tsx line 104). -/
def annualRate (interestRate : ℚ) : ℚ :=
  if isMonthlyRate interestRate then interestRate * 12 else interestRate

/-- The `for (let year = 1; year <= dateDiff.years; year++)` loop
(page.tsx lines 109-122): takes the label of the first year, the number
of remaining iterations and the current principal; returns the pushed
entries and the compounded principal. -/
def yearEntries (annual : ℚ) : ℕ → ℕ → ℚ → List BreakdownEntry × ℚ
  | _, 0, current => ([], current)
  | label, n + 1, current =>
    let yearlyInterest := current * annual / 100
    let newAmount := current + yearlyInterest
    let entry : BreakdownEntry :=
      ⟨"Year " ++ toString label, current, yearlyInterest, newAmount⟩
    let rest := yearEntries annual (label + 1) n newAmount
    (entry :: rest.1, rest.2)

/-- Period label of the trailing entry (page.tsx lines 134-136):
`periodLabel` pieces joined by a space, with the source's
pluralisation. -/
def remainderPeriodLabel (months days : ℤ) : String :=
  String.intercalate " "
    ((if 0 < months then
        [toString months ++ " month" ++ (if 1 < months then "s" else "")]
      else []) ++
     (if 0 < days then
        [toString days ++ " day" ++ (if 1 < days then "s" else "")]
      else []))

/-- The trailing partial months/days block (page.tsx lines 124-156,
guarded by `dateDiff.months > 0 || dateDiff.days > 0`); the entry's
interest is the source's `partialInterest`. Returns the pushed entries
(one or none) and the updated principal. -/
def remainderEntry (monthly : ℚ) (months days : ℤ) (current : ℚ) :
    List BreakdownEntry × ℚ :=
  if 0 < months ∨ 0 < days then
    let monthlyInterestAmount := current * monthly / 100
    let monthsInterest := monthlyInterestAmount * (months : ℚ)
    let dailyInterestAmount := monthlyInterestAmount / (BS_DAYS_PER_MONTH : ℚ)
    let daysInterest := dailyInterestAmount * (days : ℚ)
    let newAmount := current + (monthsInterest + daysInterest)
    ([⟨remainderPeriodLabel months days, current,
        monthsInterest + daysInterest, newAmount⟩], newAmount)
  else ([], current)

/-- `Math.round` of JavaScript: floor of the value plus one half. -/
def jsRound (q : ℚ) : ℤ := ⌊q + 1 / 2⌋

/-- `Math.round(value * 100) / 100` (page.tsx lines 162-163). -/
def round2 (q : ℚ) : ℚ := (jsRound (q * 100) : ℚ) / 100

/-- Breakdown list and unrounded final principal of the accrual loop of
`calculateNepaliInterest` (page.tsx lines 106-156) for a given
date difference. -/
def coreState (principal interestRate : ℚ) (dateDiff : Duration) :
    List BreakdownEntry × ℚ :=
  let yearly := yearEntries (annualRate interestRate) 1 dateDiff.years.toNat principal
  let remainder := remainderEntry (monthlyRate interestRate)
    dateDiff.months dateDiff.days yearly.2
  (yearly.1 ++ remainder.1, remainder.2)

/-- The result assembly of `calculateNepaliInterest`
(page.tsx lines 158-166) for a given date difference. -/
def calculateNepaliInterestCore (principal interestRate : ℚ)
    (dateDiff : Duration) : CalculationResult :=
  ⟨round2 (coreState principal interestRate dateDiff).2,
   round2 ((coreState principal interestRate dateDiff).2 - principal),
   dateDiff,
   (coreState principal interestRate dateDiff).1⟩

/-- `calculateNepaliInterest` (page.tsx lines 91-167) over parsed date
components: validate principal and rate, compute the date difference
(propagating its error), then run the accrual loop. -/
def calculateNepaliInterest (principal interestRate : ℚ)
    (startDate endDate : BSDate) : Except String CalculationResult :=
  if principal ≤ 0 then .error "Principal must be greater than 0"
  else if interestRate < 0 then .error "Interest rate cannot be negative"
  else
    match calculateBSDateDifference startDate endDate with
    | .error msg => .error msg
    | .ok dateDiff => .ok (calculateNepaliInterestCore principal interestRate dateDiff)

/-- The regular expression test `/^\d{4}-\d{2}-\d{2}$/`
(page.tsx line 217). -/
def matchesDatePattern (s : String) : Bool :=
  match s.toList with
  | [a, b, c, d, h1, e, f, h2, g, i] =>
    a.isDigit && b.isDigit && c.isDigit && d.isDigit && h1 == '-' &&
      e.isDigit && f.isDigit && h2 == '-' && g.isDigit && i.isDigit
  | _ => false

/-- `handleCalculate` (page.tsx lines 203-234). The parsed
`parseFloat` values arrive as `Option ℚ` (`none` for `NaN`); the prior
UI state `st` is the state being replaced. Every failure path runs
`setError(message)` and `setResult(null)`; the success path runs
`setError('')` and `setResult(result)`. The final fallback arm is dead
code: a string passing the pattern test always parses. -/
def handleCalculate (principalNum interestRateNum : Option ℚ)
    (startDate endDate : String) (st : UIState) : UIState :=
  match principalNum with
  | none => ⟨none, "Please enter a valid principal amount greater than 0"⟩
  | some principal =>
    if principal ≤ 0 then
      ⟨none, "Please enter a valid principal amount greater than 0"⟩
    else
      match interestRateNum with
      | none => ⟨none, "Please enter a valid interest rate (0 or greater)"⟩
      | some interestRate =>
        if interestRate < 0 then
          ⟨none, "Please enter a valid interest rate (0 or greater)"⟩
        else if ¬ (matchesDatePattern startDate && matchesDatePattern endDate) then
          ⟨none, "Please enter dates in YYYY-MM-DD format (BS calendar)"⟩
        else
          match parseBSDate startDate, parseBSDate endDate with
          | some sd, some ed =>
            (match calculateNepaliInterest principal interestRate sd ed with
             | .ok res => ⟨some res, ""⟩
             | .error msg => ⟨none, msg⟩)
          | _, _ => ⟨none, "Please enter dates in YYYY-MM-DD format (BS calendar)"⟩

/-- Strict precedence of BS dates under (year, month, day) lexicographic
comparison, stated from the spec's words (section 4.1) for comparison
with the source's guard condition. -/
def bsLexLt (a b : BSDate) : Prop :=
  a.year < b.year ∨
    (a.year = b.year ∧ (a.month < b.month ∨ (a.month = b.month ∧ a.day < b.day)))

instance : DecidablePred fun p : BSDate × BSDate => bsLexLt p.1 p.2 :=
  fun _ => inferInstanceAs (Decidable (_ ∨ _))

instance (a b : BSDate) : Decidable (bsLexLt a b) :=
  inferInstanceAs (Decidable (_ ∨ _))

/-- Ledger chain predicate: starting from principal `p`, each entry
starts where the previous one ended, each entry's ending amount is its
starting principal plus its interest, and the chain ends at `c`. -/
def chainFrom (p : ℚ) : List BreakdownEntry → ℚ → Prop
  | [], c => c = p
  | e :: es, c =>
    e.startingPrincipal = p ∧
    e.endingAmount = e.startingPrincipal + e.interest ∧
    chainFrom e.endingAmount es c

/-! ## Helper lemmas -/

lemma guard_iff_bsLexLt (s e : BSDate) :
    (e.year < s.year ∨
      (e.year = s.year ∧ e.month < s.month) ∨
      (e.year = s.year ∧ e.month = s.month ∧ e.day < s.day)) ↔ bsLexLt e s := by
  unfold bsLexLt
  tauto

lemma diff_ok_of_not_lt (s e : BSDate) (h : ¬ bsLexLt e s) :
    ∃ d, calculateBSDateDifference s e = .ok d := by
  unfold calculateBSDateDifference
  rw [if_neg ((guard_iff_bsLexLt s e).not.mpr h)]
  exact ⟨_, rfl⟩

lemma diff_error_msg (s e : BSDate) (msg : String)
    (h : calculateBSDateDifference s e = .error msg) :
    msg = "End date must be after start date" := by
  unfold calculateBSDateDifference at h
  split_ifs at h with hc
  exact (Except.error.injEq _ _).mp h.symm

lemma yearEntries_snd (annual : ℚ) (label n : ℕ) (current : ℚ) :
    (yearEntries annual label n current).2 = current * (1 + annual / 100) ^ n := by
  induction n generalizing label current with
  | zero => simp [yearEntries]
  | succ n ih =>
    show (yearEntries annual (label + 1) n (current + current * annual / 100)).2 = _
    rw [ih]
    ring

lemma remainderEntry_snd (monthly : ℚ) (months days : ℤ) (current : ℚ) :
    (remainderEntry monthly months days current).2 =
      current * (if 0 < months ∨ 0 < days then
        1 + monthly * (months : ℚ) / 100 + monthly * (days : ℚ) / 3000 else 1) := by
  unfold remainderEntry BS_DAYS_PER_MONTH
  split_ifs with h
  · show current + (current * monthly / 100 * (months : ℚ) +
      current * monthly / 100 / ((30 : ℤ) : ℚ) * (days : ℚ)) = _
    push_cast
    ring
  · exact (mul_one current).symm

lemma chainFrom_append {p c c2 : ℚ} {es fs : List BreakdownEntry}
    (h1 : chainFrom p es c) (h2 : chainFrom c fs c2) :
    chainFrom p (es ++ fs) c2 := by
  induction es generalizing p with
  | nil =>
    unfold chainFrom at h1
    subst h1
    exact h2
  | cons e es ih => exact ⟨h1.1, h1.2.1, ih h1.2.2⟩

lemma yearEntries_chain (annual : ℚ) (label n : ℕ) (current : ℚ) :
    chainFrom current (yearEntries annual label n current).1
      (yearEntries annual label n current).2 := by
  induction n generalizing label current with
  | zero => exact rfl
  | succ n ih => exact ⟨rfl, rfl, ih (label + 1) _⟩

lemma remainderEntry_chain (monthly : ℚ) (months days : ℤ) (current : ℚ) :
    chainFrom current (remainderEntry monthly months days current).1
      (remainderEntry monthly months days current).2 := by
  unfold remainderEntry
  split_ifs with h
  · exact ⟨rfl, rfl, rfl⟩
  · exact rfl

lemma yearEntries_periods (annual : ℚ) (label n : ℕ) (current : ℚ) :
    (yearEntries annual label n current).1.map BreakdownEntry.period =
      (List.range n).map (fun i => "Year " ++ toString (label + i)) := by
  induction n generalizing label current with
  | zero => simp [yearEntries]
  | succ n ih =>
    show ("Year " ++ toString label) ::
        (yearEntries annual (label + 1) n _).1.map BreakdownEntry.period = _
    rw [ih, List.range_succ_eq_map, List.map_cons, List.map_map]
    refine congrArg₂ _ (by rw [Nat.add_zero]) (List.map_congr_left fun i _ => ?_)
    simp only [Function.comp_apply]
    exact congrArg (fun k => "Year " ++ toString k) (by omega)

lemma remainderEntry_periods (monthly : ℚ) (months days : ℤ) (current : ℚ) :
    (remainderEntry monthly months days current).1.map BreakdownEntry.period =
      (if 0 < months ∨ 0 < days then [remainderPeriodLabel months days] else []) := by
  unfold remainderEntry
  split_ifs with h <;> simp

lemma yearEntries_zero (label n : ℕ) (current : ℚ) :
    (yearEntries 0 label n current).2 = current ∧
      ∀ e ∈ (yearEntries 0 label n current).1, e.interest = 0 := by
  induction n generalizing label current with
  | zero => exact ⟨rfl, by simp [yearEntries]⟩
  | succ n ih =>
    have hz : current * (0 : ℚ) / 100 = 0 := by ring
    constructor
    · show (yearEntries 0 (label + 1) n (current + current * 0 / 100)).2 = current
      rw [(ih (label + 1) _).1, hz, add_zero]
    · intro e he
      rcases List.mem_cons.mp he with h | h
      · rw [h]
        exact hz
      · exact (ih (label + 1) _).2 e h

lemma remainderEntry_zero (months days : ℤ) (current : ℚ) :
    (remainderEntry 0 months days current).2 = current ∧
      ∀ e ∈ (remainderEntry 0 months days current).1, e.interest = 0 := by
  unfold remainderEntry
  split_ifs with h
  · constructor
    · show current + (current * 0 / 100 * (months : ℚ) +
        current * 0 / 100 / ((BS_DAYS_PER_MONTH : ℤ) : ℚ) * (days : ℚ)) = current
      ring
    · intro e he
      rw [List.mem_singleton.mp he]
      show current * 0 / 100 * (months : ℚ) +
        current * 0 / 100 / ((BS_DAYS_PER_MONTH : ℤ) : ℚ) * (days : ℚ) = 0
      ring
  · exact ⟨rfl, by simp⟩

lemma round2_zero : round2 0 = 0 := by
  unfold round2 jsRound
  norm_num

lemma annualRate_pos (r : ℚ) (hr : 0 < r) : 0 < annualRate r := by
  unfold annualRate isMonthlyRate
  split_ifs with h
  · linarith
  · exact hr

lemma monthlyRate_nonneg (r : ℚ) (hr : 0 ≤ r) : 0 ≤ monthlyRate r := by
  unfold monthlyRate isMonthlyRate
  split_ifs with h
  · exact hr
  · linarith

lemma handleCalculate_cleared (principalNum interestRateNum : Option ℚ)
    (startDate endDate : String) (st : UIState) :
    (handleCalculate principalNum interestRateNum startDate endDate st).result = none ∨
      (handleCalculate principalNum interestRateNum startDate endDate st).error = "" := by
  unfold handleCalculate
  rcases principalNum with _ | p
  · exact Or.inl rfl
  dsimp only
  by_cases hp : p ≤ 0
  · rw [if_pos hp]
    exact Or.inl rfl
  rw [if_neg hp]
  rcases interestRateNum with _ | r
  · exact Or.inl rfl
  dsimp only
  by_cases hr : r < 0
  · rw [if_pos hr]
    exact Or.inl rfl
  rw [if_neg hr]
  by_cases hpat : ¬ (matchesDatePattern startDate && matchesDatePattern endDate) = true
  · rw [if_pos hpat]
    exact Or.inl rfl
  rw [if_neg hpat]
  rcases parseBSDate startDate with _ | sd <;> rcases parseBSDate endDate with _ | ed
  · exact Or.inl rfl
  · exact Or.inl rfl
  · exact Or.inl rfl
  dsimp only
  rcases calculateNepaliInterest p r sd ed with msg | res
  · exact Or.inl rfl
  · exact Or.inr rfl

/-! ## Claim theorems -/

/-- C2: the rate-interpretation boundary is strict less-than 10: a rate
below 10 is monthly (annual rate is rate times 12, so 9.999 yields
annual rate 119.988), a rate of 10 or more is annual (monthly rate is
rate divided by 12, so 10 yields annual rate exactly 10). -/
theorem rate_interpretation_boundary (r : ℚ) :
    ((r < 10 → annualRate r = r * 12 ∧ monthlyRate r = r) ∧
     (10 ≤ r → annualRate r = r ∧ monthlyRate r = r / 12)) ∧
    (annualRate 9.999 = 119.988 ∧ annualRate 10 = 10) := by
  refine ⟨⟨fun h => ?_, fun h => ?_⟩, ?_, ?_⟩
  · rw [annualRate, monthlyRate, isMonthlyRate]
    simp [h]
  · rw [annualRate, monthlyRate, isMonthlyRate]
    simp [not_lt.mpr h]
  · rw [annualRate, isMonthlyRate]
    norm_num
  · rw [annualRate, isMonthlyRate]
    norm_num

/-- Witness for C2 at rates 3 (monthly side) and 12 (annual side). -/
theorem rate_interpretation_boundary_witness :
    annualRate 3 = 3 * 12 ∧ monthlyRate 12 = 12 / 12 :=
  ⟨((rate_interpretation_boundary 3).1.1 (by norm_num)).1,
   ((rate_interpretation_boundary 12).1.2 (by norm_num)).2⟩

/-- C4: the date difference raises the ordering error exactly when the
end date strictly precedes the start date under (year, month, day)
lexicographic comparison; equal dates do not raise, and the concrete
pair start 2080-01-01, end 2079-01-01 raises. -/
theorem dateDifference_ordering (s e : BSDate) :
    (calculateBSDateDifference s e = .error "End date must be after start date" ↔
      bsLexLt e s) ∧
    (∃ d, calculateBSDateDifference s s = .ok d) ∧
    calculateBSDateDifference ⟨2080, 1, 1⟩ ⟨2079, 1, 1⟩ =
      .error "End date must be after start date" := by
  refine ⟨?_, ?_, by unfold calculateBSDateDifference; rw [if_pos (by decide)]⟩
  · unfold calculateBSDateDifference
    split_ifs with h
    · exact iff_of_true rfl ((guard_iff_bsLexLt s e).mp h)
    · exact iff_of_false (by simp) (fun hlt => h ((guard_iff_bsLexLt s e).mpr hlt))
  · exact diff_ok_of_not_lt s s (by unfold bsLexLt; omega)

/-- C5: for valid BS dates (month 1-12, day 1-30) with start not after
end, the computed duration is normalized: years nonnegative, months in
0-11 and days in 0-29. -/
theorem duration_normalized (s e : BSDate)
    (hsm1 : 1 ≤ s.month) (hsm2 : s.month ≤ 12)
    (hsd1 : 1 ≤ s.day) (hsd2 : s.day ≤ 30)
    (hem1 : 1 ≤ e.month) (hem2 : e.month ≤ 12)
    (hed1 : 1 ≤ e.day) (hed2 : e.day ≤ 30)
    (hord : ¬ bsLexLt e s) :
    ∃ d, calculateBSDateDifference s e = .ok d ∧
      0 ≤ d.years ∧ 0 ≤ d.months ∧ d.months ≤ 11 ∧ 0 ≤ d.days ∧ d.days ≤ 29 := by
  unfold bsLexLt at hord
  unfold calculateBSDateDifference BS_DAYS_PER_MONTH BS_MONTHS_PER_YEAR
  rw [if_neg (by tauto)]
  refine ⟨_, rfl, ?_, ?_, ?_, ?_, ?_⟩ <;> (dsimp only; split_ifs <;> omega)

/-- Witness for C5 at start 2078-01-10, end 2080-04-04. -/
theorem duration_normalized_witness :
    ∃ d, calculateBSDateDifference ⟨2078, 1, 10⟩ ⟨2080, 4, 4⟩ = .ok d ∧
      0 ≤ d.years ∧ 0 ≤ d.months ∧ d.months ≤ 11 ∧ 0 ≤ d.days ∧ d.days ≤ 29 :=
  duration_normalized ⟨2078, 1, 10⟩ ⟨2080, 4, 4⟩ (by decide) (by decide)
    (by decide) (by decide) (by decide) (by decide) (by decide) (by decide)
    (by decide)

/-- C3 counterexample: with a successful result on display, a failing
invocation (principal 0) leaves the stored result `none`, not the prior
value: the claim that the prior result is left unchanged is false. -/
theorem errorKeepsResult_counterexample :
    (handleCalculate (some 0) (some 5) "2080-01-01" "2080-02-02"
        ⟨some ⟨100, 0, ⟨0, 0, 0⟩, []⟩, ""⟩).result = none ∧
      some (⟨100, 0, ⟨0, 0, 0⟩, []⟩ : CalculationResult) ≠
        (none : Option CalculationResult) := by
  constructor
  · unfold handleCalculate
    dsimp only
    rw [if_pos (by norm_num)]
  · simp

/-- C3 amended: after a failing `handleCalculate` invocation the stored
result is cleared to null (it is not preserved), and the new state does
not depend on the prior state at all. -/
theorem errorClearsResult (principalNum interestRateNum : Option ℚ)
    (startDate endDate : String) (st : UIState) :
    ((handleCalculate principalNum interestRateNum startDate endDate st).error ≠ "" →
      (handleCalculate principalNum interestRateNum startDate endDate st).result = none) ∧
    handleCalculate principalNum interestRateNum startDate endDate st =
      handleCalculate principalNum interestRateNum startDate endDate ⟨none, ""⟩ :=
  ⟨fun herr =>
    (handleCalculate_cleared principalNum interestRateNum startDate endDate st).resolve_right
      herr, rfl⟩

/-- Witness for C3 amended: the invalid-principal failure clears the
result. -/
theorem errorClearsResult_witness :
    (handleCalculate (some 0) (some 5) "2080-01-01" "2080-02-02"
      ⟨none, ""⟩).result = none :=
  (errorClearsResult (some 0) (some 5) "2080-01-01" "2080-02-02" ⟨none, ""⟩).1
    (by
      unfold handleCalculate
      dsimp only
      rw [if_pos (by norm_num)]
      decide)

/-- C6 counterexample: for principal 1/1000 (positive, but not a
two-decimal amount) and equal dates, the returned final amount is the
rounded value 0, not the principal itself. -/
theorem sameDate_counterexample :
    calculateNepaliInterest (1/1000) 0 ⟨2080, 1, 1⟩ ⟨2080, 1, 1⟩ =
      .ok ⟨0, 0, ⟨0, 0, 0⟩, []⟩ ∧ (0 : ℚ) ≠ 1/1000 := by
  have hd : calculateBSDateDifference ⟨2080, 1, 1⟩ ⟨2080, 1, 1⟩ = .ok ⟨0, 0, 0⟩ := by
    unfold calculateBSDateDifference
    rw [if_neg (by decide)]
    dsimp only
    norm_num
  constructor
  · unfold calculateNepaliInterest
    rw [if_neg (by norm_num), if_neg (by norm_num), hd]
    dsimp only
    unfold calculateNepaliInterestCore coreState yearEntries remainderEntry
      round2 jsRound
    norm_num
  · norm_num

/-- C6 amended: for every positive principal, nonnegative rate and equal
dates the result has duration (0,0,0), an empty ledger, total interest 0
and final amount equal to the principal rounded to two decimal places
(hence equal to the principal whenever it has at most two decimals). -/
theorem sameDate_identity (p r : ℚ) (d : BSDate) (hp : 0 < p) (hr : 0 ≤ r) :
    calculateNepaliInterest p r d d = .ok ⟨round2 p, 0, ⟨0, 0, 0⟩, []⟩ := by
  have hd : calculateBSDateDifference d d = .ok ⟨0, 0, 0⟩ := by
    unfold calculateBSDateDifference
    rw [if_neg (by omega)]
    dsimp only
    split_ifs <;> simp only [Except.ok.injEq, Duration.mk.injEq] <;> omega
  unfold calculateNepaliInterest
  rw [if_neg (not_le.mpr hp), if_neg (not_lt.mpr hr), hd]
  dsimp only
  unfold calculateNepaliInterestCore coreState yearEntries remainderEntry
  norm_num [round2_zero]

/-- Witness for C6 amended at principal 100, rate 5, equal dates. -/
theorem sameDate_identity_witness :
    calculateNepaliInterest 100 5 ⟨2080, 2, 2⟩ ⟨2080, 2, 2⟩ =
      .ok ⟨round2 100, 0, ⟨0, 0, 0⟩, []⟩ :=
  sameDate_identity 100 5 ⟨2080, 2, 2⟩ (by norm_num) (by norm_num)

/-- C7: the principal error is raised exactly when principal ≤ 0; for a
positive principal the rate error is raised exactly when the rate is
negative; and with a positive principal, nonnegative rate and validly
ordered dates the calculation succeeds. -/
theorem validation_errors (p r : ℚ) (s e : BSDate) :
    (calculateNepaliInterest p r s e = .error "Principal must be greater than 0" ↔
      p ≤ 0) ∧
    (0 < p →
      (calculateNepaliInterest p r s e = .error "Interest rate cannot be negative" ↔
        r < 0)) ∧
    (0 < p → 0 ≤ r → ¬ bsLexLt e s →
      ∃ res, calculateNepaliInterest p r s e = .ok res) := by
  unfold calculateNepaliInterest
  by_cases hp : p ≤ 0
  · rw [if_pos hp]
    exact ⟨iff_of_true rfl hp,
      fun hlt => absurd hp (not_le.mpr hlt),
      fun hlt => absurd hp (not_le.mpr hlt)⟩
  · rw [if_neg hp]
    by_cases hr : r < 0
    · rw [if_pos hr]
      exact ⟨iff_of_false (by simp) hp,
        fun _ => iff_of_true rfl hr,
        fun _ hr2 => absurd hr (not_lt.mpr hr2)⟩
    · rw [if_neg hr]
      rcases hdiff : calculateBSDateDifference s e with msg | dd
      · have hmsg := diff_error_msg s e msg hdiff
        subst hmsg
        refine ⟨iff_of_false (by simp) hp, fun _ => iff_of_false (by simp) hr,
          fun _ _ hord => ?_⟩
        obtain ⟨d2, hok⟩ := diff_ok_of_not_lt s e hord
        rw [hok] at hdiff
        exact absurd hdiff (by simp)
      · exact ⟨iff_of_false (by simp) hp,
          fun _ => iff_of_false (by simp) hr,
          fun _ _ _ => ⟨_, rfl⟩⟩

/-- Witness for C7: principal 0 raises the principal error; principal
100 with rate 5 and ordered dates succeeds. -/
theorem validation_errors_witness :
    (calculateNepaliInterest 0 5 ⟨2080, 1, 1⟩ ⟨2080, 1, 2⟩ =
        .error "Principal must be greater than 0" ↔ (0 : ℚ) ≤ 0) ∧
    (∃ res, calculateNepaliInterest 100 5 ⟨2080, 1, 1⟩ ⟨2080, 1, 2⟩ = .ok res) :=
  ⟨(validation_errors 0 5 ⟨2080, 1, 1⟩ ⟨2080, 1, 2⟩).1,
   (validation_errors 100 5 ⟨2080, 1, 1⟩ ⟨2080, 1, 2⟩).2.2 (by norm_num)
     (by norm_num) (by decide)⟩

/-- C8 counterexample: at principal 1/1000 and rate 1/1000 (> 0), the
result's final amount for a duration of 0 years and for 1 year are both
the rounded value 0, so adding a full year does not strictly increase
the returned final amount. -/
theorem yearMonotonicity_counterexample :
    calculateNepaliInterest (1/1000) (1/1000) ⟨2080, 1, 1⟩ ⟨2080, 1, 1⟩ =
      .ok ⟨0, 0, ⟨0, 0, 0⟩, []⟩ ∧
    calculateNepaliInterest (1/1000) (1/1000) ⟨2080, 1, 1⟩ ⟨2081, 1, 1⟩ =
      .ok ⟨0, 0, ⟨1, 0, 0⟩,
        [⟨"Year 1", 1/1000, 3/25000000, 25003/25000000⟩]⟩ ∧
    ¬ ((0 : ℚ) < 0) := by
  have hY : "Year " ++ toString (1 : ℕ) = "Year 1" := by decide
  have hd0 : calculateBSDateDifference ⟨2080, 1, 1⟩ ⟨2080, 1, 1⟩ = .ok ⟨0, 0, 0⟩ := by
    unfold calculateBSDateDifference
    rw [if_neg (by decide)]
    dsimp only
    norm_num
  have hd1 : calculateBSDateDifference ⟨2080, 1, 1⟩ ⟨2081, 1, 1⟩ = .ok ⟨1, 0, 0⟩ := by
    unfold calculateBSDateDifference
    rw [if_neg (by decide)]
    dsimp only
    norm_num
  refine ⟨?_, ?_, by norm_num⟩
  · unfold calculateNepaliInterest
    rw [if_neg (by norm_num), if_neg (by norm_num), hd0]
    dsimp only
    unfold calculateNepaliInterestCore coreState yearEntries remainderEntry
      round2 jsRound
    norm_num
  · unfold calculateNepaliInterest
    rw [if_neg (by norm_num), if_neg (by norm_num), hd1]
    dsimp only
    unfold calculateNepaliInterestCore coreState yearEntries remainderEntry
      round2 jsRound annualRate monthlyRate isMonthlyRate
    norm_num [hY, yearEntries]

/-- C8 amended: for positive principal and rate and a nonnegative
months/days remainder, one additional full year strictly increases the
final amount computed before the top-level rounding (the rounded final
amount is nondecreasing but can stay equal, as the counterexample
shows). -/
theorem yearMonotonicity (p r : ℚ) (months days : ℤ) (years : ℕ)
    (hp : 0 < p) (hr : 0 < r) (hm : 0 ≤ months) (hd : 0 ≤ days) :
    (coreState p r ⟨(years : ℤ), months, days⟩).2 <
      (coreState p r ⟨(years : ℤ) + 1, months, days⟩).2 := by
  have ht1 : ((years : ℤ)).toNat = years := by omega
  have ht2 : ((years : ℤ) + 1).toNat = years + 1 := by omega
  have ha : 0 < annualRate r := annualRate_pos r hr
  have hmr : 0 ≤ monthlyRate r := monthlyRate_nonneg r (le_of_lt hr)
  have hmq : (0 : ℚ) ≤ (months : ℚ) := by exact_mod_cast hm
  have hdq : (0 : ℚ) ≤ (days : ℚ) := by exact_mod_cast hd
  unfold coreState
  dsimp only
  rw [ht1, ht2, remainderEntry_snd, remainderEntry_snd, yearEntries_snd,
    yearEntries_snd]
  have hk1 : 1 ≤ (if 0 < months ∨ 0 < days then
      1 + monthlyRate r * (months : ℚ) / 100 + monthlyRate r * (days : ℚ) / 3000
    else 1) := by
    split_ifs with h
    · nlinarith [mul_nonneg hmr hmq, mul_nonneg hmr hdq]
    · exact le_refl 1
  have hkpos : (0 : ℚ) < (if 0 < months ∨ 0 < days then
      1 + monthlyRate r * (months : ℚ) / 100 + monthlyRate r * (days : ℚ) / 3000
    else 1) := lt_of_lt_of_le zero_lt_one hk1
  have hbase : 0 < p * (1 + annualRate r / 100) ^ years :=
    mul_pos hp (pow_pos (by linarith) years)
  have hstep : p * (1 + annualRate r / 100) ^ years <
      p * (1 + annualRate r / 100) ^ (years + 1) := by
    rw [pow_succ]
    nlinarith [mul_pos hbase (show (0 : ℚ) < annualRate r / 100 by linarith)]
  exact mul_lt_mul_of_pos_right hstep hkpos

/-- Witness for C8 amended: two versus three full years at principal
100000, rate 3, remainder 3 months 4 days. -/
theorem yearMonotonicity_witness :
    (coreState 100000 3 ⟨((2 : ℕ) : ℤ), 3, 4⟩).2 <
      (coreState 100000 3 ⟨((2 : ℕ) : ℤ) + 1, 3, 4⟩).2 :=
  yearMonotonicity 100000 3 3 4 2 (by norm_num) (by norm_num) (by norm_num)
    (by norm_num)

/-- C9: the breakdown ledger is internally consistent: starting from the
input principal, entries chain (each starts where the previous ended and
ends at start plus interest) and finish at the unrounded final amount;
the reported final amount is that value rounded; and the period labels
are exactly "Year 1" through "Year N" followed by one trailing remainder
label exactly when months > 0 or days > 0. -/
theorem breakdown_consistency (p r : ℚ) (d : Duration) :
    chainFrom p (calculateNepaliInterestCore p r d).breakdown (coreState p r d).2 ∧
    (calculateNepaliInterestCore p r d).finalAmount = round2 (coreState p r d).2 ∧
    (calculateNepaliInterestCore p r d).breakdown.map BreakdownEntry.period =
      (List.range d.years.toNat).map (fun i => "Year " ++ toString (1 + i)) ++
        (if 0 < d.months ∨ 0 < d.days then [remainderPeriodLabel d.months d.days]
         else []) := by
  refine ⟨?_, rfl, ?_⟩
  · show chainFrom p (coreState p r d).1 (coreState p r d).2
    unfold coreState
    dsimp only
    exact chainFrom_append (yearEntries_chain _ _ _ _) (remainderEntry_chain _ _ _ _)
  · show (coreState p r d).1.map BreakdownEntry.period = _
    unfold coreState
    dsimp only
    rw [List.map_append, yearEntries_periods, remainderEntry_periods]

/-- C10: rate exactly 0 is accepted for any positive principal and
ordered dates; it yields total interest 0, every ledger entry with
interest 0, and final amount equal to the principal rounded to two
decimals. -/
theorem zeroRate_identity (p : ℚ) (s e : BSDate) (hp : 0 < p)
    (hord : ¬ bsLexLt e s) :
    ∃ res, calculateNepaliInterest p 0 s e = .ok res ∧
      res.totalInterest = 0 ∧ res.finalAmount = round2 p ∧
      ∀ en ∈ res.breakdown, en.interest = 0 := by
  obtain ⟨dd, hok⟩ := diff_ok_of_not_lt s e hord
  have ha : annualRate 0 = 0 := by
    unfold annualRate isMonthlyRate
    norm_num
  have hm : monthlyRate 0 = 0 := by
    unfold monthlyRate isMonthlyRate
    norm_num
  have h2 : (coreState p 0 dd).2 = p := by
    unfold coreState
    dsimp only
    rw [ha, hm, (remainderEntry_zero _ _ _).1, (yearEntries_zero _ _ _).1]
  refine ⟨calculateNepaliInterestCore p 0 dd, ?_, ?_, ?_, ?_⟩
  · unfold calculateNepaliInterest
    rw [if_neg (not_le.mpr hp), if_neg (by norm_num), hok]
  · show round2 ((coreState p 0 dd).2 - p) = 0
    rw [h2, sub_self, round2_zero]
  · show round2 (coreState p 0 dd).2 = round2 p
    rw [h2]
  · show ∀ en ∈ (coreState p 0 dd).1, en.interest = 0
    unfold coreState
    dsimp only
    rw [ha, hm]
    intro en hen
    rcases List.mem_append.mp hen with h | h
    · exact (yearEntries_zero _ _ _).2 en h
    · exact (remainderEntry_zero _ _ _).2 en h

/-- Witness for C10 at principal 100 and the worked example's dates. -/
theorem zeroRate_identity_witness :
    ∃ res, calculateNepaliInterest 100 0 ⟨2078, 1, 1⟩ ⟨2080, 4, 4⟩ = .ok res ∧
      res.totalInterest = 0 ∧ res.finalAmount = round2 100 ∧
      ∀ en ∈ res.breakdown, en.interest = 0 :=
  zeroRate_identity 100 ⟨2078, 1, 1⟩ ⟨2080, 4, 4⟩ (by norm_num) (by decide)

lemma diff_workedExample :
    calculateBSDateDifference ⟨2078, 1, 1⟩ ⟨2080, 4, 4⟩ = .ok ⟨2, 3, 3⟩ := by
  unfold calculateBSDateDifference
  rw [if_neg (by decide)]
  dsimp only
  norm_num

/-- C1 counterexample: for start 2078-01-01 and end 2080-04-04 the day
component of the difference is 4 − 1 = 3, not 4: the computed duration
is (2 years, 3 months, 3 days), refuting the claimed (2, 3, 4) and with
it the claimed partial interest and totals. -/
theorem workedExample_counterexample :
    parseBSDate "2078-01-01" = some ⟨2078, 1, 1⟩ ∧
    parseBSDate "2080-04-04" = some ⟨2080, 4, 4⟩ ∧
    calculateBSDateDifference ⟨2078, 1, 1⟩ ⟨2080, 4, 4⟩ = .ok ⟨2, 3, 3⟩ ∧
    (⟨2, 3, 3⟩ : Duration) ≠ ⟨2, 3, 4⟩ ∧
    (202161.28 : ℚ) ≠ 202346.24 :=
  ⟨by decide, by decide, diff_workedExample, by decide, by norm_num⟩

/-- C1 amended: for principal 100000, rate 3, start 2078-01-01, end
2080-04-04 the duration is (2 years, 3 months, 3 days); Year 1 earns
36000 (annual rate 36, since 3 < 10 the rate is monthly) ending at
136000, Year 2 earns 48960 ending at 184960, and the trailing partial
entry earns 17201.28 (months component 5548.80 × 3 = 16646.40, daily
component 184.96 × 3 = 554.88), for final amount 202161.28 and total
interest 102161.28. -/
theorem workedExample :
    calculateNepaliInterest 100000 3 ⟨2078, 1, 1⟩ ⟨2080, 4, 4⟩ =
      .ok ⟨202161.28, 102161.28, ⟨2, 3, 3⟩,
        [⟨"Year 1", 100000, 36000, 136000⟩,
         ⟨"Year 2", 136000, 48960, 184960⟩,
         ⟨"3 months 3 days", 184960, 17201.28, 202161.28⟩]⟩ ∧
    (184960 * 3 / 100 : ℚ) = 5548.80 ∧
    (5548.80 * 3 : ℚ) = 16646.40 ∧
    (5548.80 / 30 : ℚ) = 184.96 ∧
    (184.96 * 3 : ℚ) = 554.88 ∧
    (16646.40 + 554.88 : ℚ) = 17201.28 := by
  have hY1 : "Year " ++ toString (1 : ℕ) = "Year 1" := by decide
  have hY2 : "Year " ++ toString (2 : ℕ) = "Year 2" := by decide
  have hR : remainderPeriodLabel 3 3 = "3 months 3 days" := by decide
  refine ⟨?_, by norm_num, by norm_num, by norm_num, by norm_num, by norm_num⟩
  unfold calculateNepaliInterest
  rw [if_neg (by norm_num), if_neg (by norm_num), diff_workedExample]
  dsimp only
  unfold calculateNepaliInterestCore coreState remainderEntry round2 jsRound
    annualRate monthlyRate isMonthlyRate BS_DAYS_PER_MONTH
  norm_num [yearEntries, hY1, hY2, hR]
